import Mathlib

/-!
Shallow embedding of the JobScraperSeek repository (Python) in Lean 4, together
with theorems settling the frozen spec claims.

Modelling conventions used throughout:
* Python `str` is Lean `String`; `str.lower()` and `str.strip()` are modelled
  by `lowerStr` and `stripStr` below (ASCII case folding, which covers every
  string any claim touches).
* ISO-8601 timestamp strings compared via `datetime.fromisoformat` are
  modelled as integers (`Int`), ordered as the parsed datetimes are;
  `datetime.now() - timedelta(days = retention_days)` becomes `now - ret`.
* A Python `dict` keyed by job URL is modelled as a function
  `String → Option Int` (key membership = `isSome`), which captures exactly
  the lookup/update/purge behaviour the storage layer uses.
* Fallible element queries of the page-automation layer return
  `Option`-valued results; an exception caught by the surrounding `try` is
  modelled by the branch the handler takes (returning `none` / `[]` / `false`).
-/

namespace JobScraper

/-! ## String primitives (models of Python `in`, `.lower()`, `.strip()`) -/

/-- Model of Python `needle in haystack` on lists of characters:
`startsWithChars hay needle` holds when `needle` is a leading run of `hay`. -/
def startsWithChars : List Char → List Char → Bool
  | _, [] => true
  | [], _ :: _ => false
  | a :: hay, b :: needle => a = b && startsWithChars hay needle

/-- `hasSubChars hay needle` : `needle` occurs contiguously inside `hay`
(Python substring membership; the empty needle always matches). -/
def hasSubChars : List Char → List Char → Bool
  | [], needle => needle.isEmpty
  | hay@(_ :: t), needle => startsWithChars hay needle || hasSubChars t needle

/-- Model of Python `needle in haystack` on strings. -/
def strContainsSub (hay needle : String) : Bool :=
  hasSubChars hay.data needle.data

/-- ASCII case folding of one character (model of `str.lower()` per char). -/
def lowerChar (c : Char) : Char :=
  if 'A' ≤ c ∧ c ≤ 'Z' then Char.ofNat (c.toNat + 32) else c

/-- Model of Python `str.lower()`. -/
def lowerStr (s : String) : String := ⟨s.data.map lowerChar⟩

def isSpaceChar (c : Char) : Bool :=
  c = ' ' || c = '\t' || c = '\n' || c = '\r'

/-- Model of Python `str.strip()` (drop leading and trailing whitespace). -/
def stripStr (s : String) : String :=
  ⟨((s.data.dropWhile isSpaceChar).reverse.dropWhile isSpaceChar).reverse⟩

/-! ## Data model: `src/models/job.py` -/

/-- The `Job` dataclass of `src/models/job.py`, after `__post_init__` has run
(so `scraped_at` is always set; timestamps are modelled as `Int`). -/
structure Job where
  title : String
  company : String
  location : String
  classification : String
  subcategory : String
  job_url : String
  posted_date : Option String := none
  salary : Option String := none
  job_type : Option String := none
  description : Option String := none
  scraped_at : Int := 0
  deriving DecidableEq, Repr

/-- The dictionary produced by `Job.to_dict` / consumed by `Job.from_dict`
(`asdict` of the dataclass).  `scraped_at` may be absent-as-`None` in a raw
dictionary, which `__post_init__` replaces by the current time. -/
structure JobDict where
  title : String
  company : String
  location : String
  classification : String
  subcategory : String
  job_url : String
  posted_date : Option String
  salary : Option String
  job_type : Option String
  description : Option String
  scraped_at : Option Int
  deriving DecidableEq, Repr

/-- The dataclass constructor followed by `__post_init__`: a `None`
`scraped_at` is replaced by `datetime.now()` (the `now` argument). -/
def mkJob (title company location classification subcategory job_url : String)
    (posted_date salary job_type description : Option String)
    (scraped_at : Option Int) (now : Int) : Job :=
  { title := title, company := company, location := location,
    classification := classification, subcategory := subcategory,
    job_url := job_url, posted_date := posted_date, salary := salary,
    job_type := job_type, description := description,
    scraped_at := scraped_at.getD now }

/-- `Job.to_dict` (`asdict(self)`). -/
def Job.to_dict (j : Job) : JobDict :=
  { title := j.title, company := j.company, location := j.location,
    classification := j.classification, subcategory := j.subcategory,
    job_url := j.job_url, posted_date := j.posted_date, salary := j.salary,
    job_type := j.job_type, description := j.description,
    scraped_at := some j.scraped_at }

/-- `Job.from_dict` (`cls(**data)`, which runs `__post_init__` at time `now`). -/
def Job.from_dict (now : Int) (d : JobDict) : Job :=
  mkJob d.title d.company d.location d.classification d.subcategory d.job_url
    d.posted_date d.salary d.job_type d.description d.scraped_at now

/-! ## Storage layer: `src/storage/json_storage.py` (`JSONStorage`) -/

/-- `JSONStorage.exists`: `job.job_url in seen_jobs` — plain key membership in
the seen-jobs mapping, with no timestamp comparison at read time. -/
def exists_seen (seen : String → Option Int) (job : Job) : Bool :=
  (seen job.job_url).isSome

/-- The retention filter applied to one mapping entry by
`JSONStorage._update_seen_jobs`: keep `timestamp` iff
`datetime.fromisoformat(timestamp) > cutoff_date`. -/
def keepRecent (cutoff : Int) : Option Int → Option Int
  | some t => if t > cutoff then some t else none
  | none => none

/-- `JSONStorage._update_seen_jobs`: upsert every scraped job's URL with the
current time, then drop every entry whose timestamp is not strictly newer
than `now - retention_days`. -/
def update_seen_jobs (seen : String → Option Int) (jobs : List Job)
    (now ret : Int) : String → Option Int :=
  fun url =>
    keepRecent (now - ret)
      (if jobs.any (fun j => j.job_url == url) then some now else seen url)

/-- The durable state of a `JSONStorage` instance: the jobs file (a JSON list
of records, in file order) and the seen-jobs mapping. -/
structure StorageState where
  file : List Job
  seen : String → Option Int

/-- `JSONStorage.save`: loads the existing jobs, appends the new ones, writes
the merged list back, then updates the seen-jobs mapping with the new jobs. -/
def save (ret now : Int) (st : StorageState) (jobs : List Job) : StorageState :=
  { file := st.file ++ jobs,
    seen := update_seen_jobs st.seen jobs now ret }

/-- `JSONStorage.cleanup_old_jobs`: load, filter by
`fromisoformat(job.scraped_at) > now - retention_days`, and when anything was
filtered out call `save(recent_jobs)`; returns the new state and the reported
removed count. -/
def cleanup_old_jobs (ret now : Int) (st : StorageState) : StorageState × Nat :=
  let jobs := st.file
  if jobs.isEmpty then (st, 0)
  else
    let cutoff := now - ret
    let recent_jobs := jobs.filter (fun j => decide (j.scraped_at > cutoff))
    let removed_count := jobs.length - recent_jobs.length
    if 0 < removed_count then (save ret now st recent_jobs, removed_count)
    else (st, removed_count)

/-- `JSONStorage.load` on a file holding the dictionaries `ds`
(`[Job.from_dict(data) for data in jobs_data]`). -/
def load_dicts (now : Int) (ds : List JobDict) : List Job :=
  ds.map (Job.from_dict now)

/-- The file contents written by `JSONStorage.save` at the serialization
level: the dictionaries of `load() + jobs`. -/
def save_dicts (now : Int) (ds : List JobDict) (jobs : List Job) : List JobDict :=
  (load_dicts now ds ++ jobs).map Job.to_dict

/-! ## Extractor and crawler: `src/scraper/seek_scraper.py` (`SeekScraper`) -/

/-- A title link element: its `inner_text()` and `get_attribute('href')`. -/
structure TElem where
  text : String
  href : Option String
  deriving DecidableEq, Repr

/-- A listing element (job card) as the extractor queries it: for every field,
the ordered results of that field's selector queries (`query_selector` returns
an element or `None`, modelled by `Option`); `raises` marks a card whose
parsing raises an exception (caught by the extractor's handler). -/
structure Card where
  raises : Bool := false
  titleResults : List (Option TElem) := []
  companyResults : List (Option String) := []
  locationResults : List (Option String) := []
  salaryResults : List (Option String) := []
  subcategoryResults : List (Option String) := []
  postedResults : List (Option String) := []
  descriptionResults : List (Option String) := []

/-- Python's `a or b or ...` over element queries: the first non-`None`
result wins. -/
def firstSome {α : Type} : List (Option α) → Option α
  | [] => none
  | some a :: _ => some a
  | none :: rest => firstSome rest

/-- The scraper configuration used by extraction and filtering:
`urljoin(self.base_url, ·)` as an abstract resolver, `self.classification`,
the two exclusion lists, and the clock used for `scraped_at`. -/
structure ScraperConfig where
  resolve : String → String
  classification : String
  excluded_subcategories : List String
  excluded_companies : List String
  now : Int

/-- `elem.inner_text().strip() if elem else fallback`, where `elem` is the
`or`-chain over the field's selector results. -/
def opt_text_or (results : List (Option String)) (fb : String) : String :=
  match firstSome results with
  | some s => stripStr s
  | none => fb

/-- `elem.inner_text().strip() if elem else None`. -/
def opt_text (results : List (Option String)) : Option String :=
  match firstSome results with
  | some s => some (stripStr s)
  | none => none

/-- `SeekScraper._extract_job_data`: resolve the title element through the
ordered selector chain (skip the card if none is found, or if the `href` is
missing or empty — Python's `if not href`), then resolve each optional field
through its own chain with the field's fallback; a card whose parsing raises
returns `None` (the handler catches the exception). -/
def extract_job_data (cfg : ScraperConfig) (card : Card) : Option Job :=
  if card.raises then none
  else
    match firstSome card.titleResults with
    | none => none
    | some te =>
      match te.href with
      | none => none
      | some href =>
        if href.isEmpty then none
        else
          some (mkJob (stripStr te.text)
            (opt_text_or card.companyResults "Unknown")
            (opt_text_or card.locationResults "Unknown")
            cfg.classification
            (opt_text_or card.subcategoryResults "Unknown")
            (cfg.resolve href)
            (some (opt_text_or card.postedResults "Recently"))
            (opt_text card.salaryResults)
            none
            (opt_text card.descriptionResults)
            none cfg.now)

/-- `SeekScraper._should_include_job`: the three rejection checks, applied in
order with early exit. -/
def should_include_job (cfg : ScraperConfig) (job : Job) : Bool :=
  if cfg.excluded_subcategories.any
      (fun e => strContainsSub (lowerStr job.subcategory) (lowerStr e)) then
    false
  else if strContainsSub (lowerStr job.company) "recruitment"
      && strContainsSub (lowerStr job.company) "agency" then
    false
  else if cfg.excluded_companies.any
      (fun e => strContainsSub (lowerStr job.company) (lowerStr e)) then
    false
  else true

/-- One page as the crawler sees it: whether the bounded wait for the listings
container times out, the job cards found on the page, and the per-selector
results of the next-page lookup (`none` = no element, `some v` = an element
whose `is_visible()` is `v`; `some true` also covers the successful click and
load wait). -/
structure Fetcher where
  timeoutOn : Nat → Bool
  cards : Nat → List Card
  nextSelectors : Nat → List (Option Bool)

/-- `SeekScraper._goto_next_page`: try the selectors in order, activating the
first one that finds a visible element; `false` when none does. -/
def goto_next_page : List (Option Bool) → Bool
  | [] => false
  | some true :: _ => true
  | _ :: rest => goto_next_page rest

/-- The per-card loop of `SeekScraper._scrape_page`: extract every card and
keep those accepted by `_should_include_job`; a card yielding `None` (or
raising, which the loop's handler catches) contributes nothing and the loop
moves on to the next card. -/
def process_cards (cfg : ScraperConfig) (cards : List Card) : List Job :=
  cards.filterMap fun c =>
    match extract_job_data cfg c with
    | some j => if should_include_job cfg j then some j else none
    | none => none

/-- `SeekScraper._scrape_page`: on a wait timeout return no jobs; otherwise
run the per-card loop over the cards found on the page. -/
def scrape_page (cfg : ScraperConfig) (f : Fetcher) (p : Nat) : List Job :=
  if f.timeoutOn p then []
  else process_cards cfg (f.cards p)

/-- The page loop of `SeekScraper.scrape` with `fuel = max_pages - page_num + 1`
remaining allowed pages: scrape the current page, stop if `_goto_next_page`
fails, otherwise continue on the next page.  Returns the accumulated jobs and
the number of pages scraped. -/
def scrapeAux (cfg : ScraperConfig) (f : Fetcher) : Nat → Nat → List Job × Nat
  | _, 0 => ([], 0)
  | p, fuel + 1 =>
    let pj := scrape_page cfg f p
    if goto_next_page (f.nextSelectors p) then
      let rest := scrapeAux cfg f (p + 1) fuel
      (pj ++ rest.1, rest.2 + 1)
    else (pj, 1)

/-- `SeekScraper.scrape`: run the page loop from page 1 with at most
`max_pages` pages. -/
def scrape (cfg : ScraperConfig) (f : Fetcher) (max_pages : Nat) :
    List Job × Nat :=
  scrapeAux cfg f 1 max_pages

/-! ## Definitions written from the spec's words, for comparison -/

/-- Spec check (a): the sub-category text case-insensitively contains some
excluded-subcategory string. -/
def spec_check_subcategory (excluded : List String) (job : Job) : Bool :=
  excluded.any fun e => strContainsSub (lowerStr job.subcategory) (lowerStr e)

/-- Spec check (b): the company name contains both "recruitment" and "agency"
as case-insensitive independent substrings, in any order. -/
def spec_check_keyword (job : Job) : Bool :=
  strContainsSub (lowerStr job.company) "recruitment"
    && strContainsSub (lowerStr job.company) "agency"

/-- Spec check (c): the company name case-insensitively contains some
explicitly excluded company string. -/
def spec_check_company (excluded : List String) (job : Job) : Bool :=
  excluded.any fun e => strContainsSub (lowerStr job.company) (lowerStr e)

/-- Spec field lookup for fields with a string fallback: the first strategy
that yields a result determines the value, otherwise the fallback. -/
def spec_field : List (Option String) → String → String
  | [], fb => fb
  | none :: rest, fb => spec_field rest fb
  | some s :: _, _ => stripStr s

/-- Spec field lookup for fields whose fallback is null. -/
def spec_field_opt : List (Option String) → Option String
  | [] => none
  | none :: rest => spec_field_opt rest
  | some s :: _ => some (stripStr s)

/-- Spec predicate: the identity has a seen entry whose timestamp is within
the retention window (newer than `now - ret`). -/
def within_window (seen : String → Option Int) (url : String)
    (now ret : Int) : Bool :=
  match seen url with
  | some t => decide (t > now - ret)
  | none => false

/-- Spec count: accepted records whose identity was not present within the
retention window in the dedup store at run start. -/
def new_within_window (seen : String → Option Int) (now ret : Int)
    (accepted : List Job) : Nat :=
  (accepted.filter fun j => !within_window seen j.job_url now ret).length

/-- Modelled from the spec: the run-summary counters of the Job Orchestrator
(`run_scrape_job` in `src/api/job_manager.py`, which is not among the provided
source files; only its caller `src/api/app.py` is).  Per §4.3, `jobsFound` is
the count of accepted records of the run and `jobsNew` is the count of those
that the Dedup Store's membership check (`JSONStorage.exists`) does not
already contain. -/
def run_counts (seen : String → Option Int) (accepted : List Job) : Nat × Nat :=
  (accepted.length, (accepted.filter fun j => !exists_seen seen j).length)

/-! ## Concrete fixtures used to evaluate the definitions -/

/-- A seen-jobs mapping holding a single entry for URL "u" with timestamp 0
(far older than any retention window used below). -/
def store0 : String → Option Int := fun k => if k = "u" then some 0 else none

/-- A record whose identity is the URL "u". -/
def job_u : Job :=
  { title := "HR Advisor", company := "Acme", location := "Sydney",
    classification := "HR", subcategory := "Consulting", job_url := "u",
    scraped_at := 0 }

/-- A record captured at time 0 (older than the cutoff used below). -/
def jobA : Job :=
  { title := "Old role", company := "A", location := "Sydney",
    classification := "HR", subcategory := "Consulting",
    job_url := "https://seek/job/1", scraped_at := 0 }

/-- A record captured at time 90 (inside the retention window used below). -/
def jobB : Job :=
  { title := "Fresh role", company := "B", location := "Sydney",
    classification := "HR", subcategory := "Consulting",
    job_url := "https://seek/job/2", scraped_at := 90 }

/-- A storage state whose jobs file holds `jobA` and `jobB`. -/
def st0 : StorageState := { file := [jobA, jobB], seen := fun _ => none }

/-- A scraper configuration with empty exclusion lists. -/
def cfgPlain : ScraperConfig :=
  { resolve := fun h => h, classification := "HR",
    excluded_subcategories := [], excluded_companies := [], now := 0 }

/-- A record from a company matching the recruitment+agency keyword rule. -/
def jobAgency : Job :=
  { title := "Recruiter", company := "Acme Recruitment Agency Pty Ltd",
    location := "Sydney", classification := "HR", subcategory := "Consulting",
    job_url := "https://seek/job/3", scraped_at := 0 }

/-- A record from a company that misses the keyword rule (no "agency"). -/
def jobRecruiting : Job :=
  { title := "Recruiter", company := "Acme Recruiting", location := "Sydney",
    classification := "HR", subcategory := "Consulting",
    job_url := "https://seek/job/4", scraped_at := 0 }

/-- A fetcher whose next-page lookup never finds any element. -/
def feNever : Fetcher :=
  { timeoutOn := fun _ => false, cards := fun _ => [],
    nextSelectors := fun _ => [] }

/-- A fetcher whose first next-page selector always finds a visible element. -/
def feAlways : Fetcher :=
  { timeoutOn := fun _ => false, cards := fun _ => [],
    nextSelectors := fun _ => [some true] }

/-- A fetcher whose wait for the listings container times out on page 1 while
a visible next-page control is always present. -/
def feTimeout1 : Fetcher :=
  { timeoutOn := fun p => p == 1, cards := fun _ => [],
    nextSelectors := fun _ => [some true] }

/-- A well-formed listing card. -/
def cardG1 : Card :=
  { titleResults := [some { text := "HR Advisor", href := some "/job/10" }],
    companyResults := [some "Acme"], locationResults := [some "Sydney"],
    subcategoryResults := [some "Consulting"] }

/-- A listing card in which no title link can be resolved (every title
selector returns no element). -/
def cardBad : Card :=
  { titleResults := [none, none, none, none, none],
    companyResults := [some "Acme"] }

/-- A listing card whose title link carries no `href` attribute. -/
def cardNoHref : Card :=
  { titleResults := [some { text := "HR Advisor", href := none }],
    companyResults := [some "Acme"] }

/-- Another well-formed listing card. -/
def cardG2 : Card :=
  { titleResults := [none, some { text := "HR Manager", href := some "/job/11" }],
    companyResults := [none, some "Beta"], locationResults := [] }

/-- A card exercising every field-lookup fallback combination. -/
def cardFields : Card :=
  { titleResults := [none, some { text := "  HR Advisor ", href := some "/job/99" }],
    companyResults := [none, some "Acme"],
    locationResults := [],
    salaryResults := [some " 100k "],
    subcategoryResults := [some "Consulting"],
    postedResults := [none],
    descriptionResults := [some "desc"] }

/-- The record that `extract_job_data cfgPlain cardFields` produces. -/
def jobFields : Job :=
  { title := "HR Advisor", company := "Acme", location := "Unknown",
    classification := "HR", subcategory := "Consulting", job_url := "/job/99",
    posted_date := some "Recently", salary := some "100k", job_type := none,
    description := some "desc", scraped_at := 0 }

/-! ## Helper lemmas -/

theorem from_dict_to_dict (now : Int) (j : Job) :
    Job.from_dict now j.to_dict = j := rfl

theorem keepRecent_idem (c : Int) (o : Option Int) :
    keepRecent c (keepRecent c o) = keepRecent c o := by
  cases o with
  | none => rfl
  | some t =>
    by_cases h : t > c
    · simp [keepRecent, h]
    · simp [keepRecent, h]

theorem keepRecent_gt (c : Int) (o : Option Int) (t : Int)
    (h : keepRecent c o = some t) : t > c := by
  cases o with
  | none => simp [keepRecent] at h
  | some u =>
    by_cases hu : u > c
    · simp [keepRecent, hu] at h
      omega
    · simp [keepRecent, hu] at h

theorem update_seen_jobs_apply (seen : String → Option Int) (jobs : List Job)
    (now ret : Int) (url : String) :
    update_seen_jobs seen jobs now ret url
      = keepRecent (now - ret)
          (if jobs.any (fun j => j.job_url == url) then some now
           else seen url) := rfl

theorem scrapeAux_one (cfg : ScraperConfig) (f : Fetcher) (q : Nat) :
    (scrapeAux cfg f q 1).2 = 1 := by
  by_cases hg : goto_next_page (f.nextSelectors q) <;> simp [scrapeAux, hg]

theorem scrapeAux_no_next (cfg : ScraperConfig) (f : Fetcher)
    (h : ∀ p, goto_next_page (f.nextSelectors p) = false) (p fuel : Nat)
    (hf : 1 ≤ fuel) : (scrapeAux cfg f p fuel).2 = 1 := by
  cases fuel with
  | zero => omega
  | succ n => simp [scrapeAux, h p]

theorem scrapeAux_always_next (cfg : ScraperConfig) (f : Fetcher)
    (h : ∀ p, goto_next_page (f.nextSelectors p) = true) :
    ∀ (fuel p : Nat), (scrapeAux cfg f p fuel).2 = fuel := by
  intro fuel
  induction fuel with
  | zero => intro p; rfl
  | succ n ih => intro p; simp [scrapeAux, h p, ih (p + 1)]

theorem opt_text_or_eq_spec_field (l : List (Option String)) (fb : String) :
    opt_text_or l fb = spec_field l fb := by
  induction l with
  | nil => rfl
  | cons h t ih =>
    cases h with
    | none => simp only [opt_text_or, firstSome, spec_field]; exact ih
    | some s => rfl

theorem opt_text_eq_spec_field_opt (l : List (Option String)) :
    opt_text l = spec_field_opt l := by
  induction l with
  | nil => rfl
  | cons h t ih =>
    cases h with
    | none => simp only [opt_text, firstSome, spec_field_opt]; exact ih
    | some s => rfl

/-! ## Claim theorems -/

/-- C10: record serialization round-trips — `Job.from_dict (Job.to_dict j)`
reconstructs every field of `j`, and consequently `JSONStorage.load` after
`JSONStorage.save` returns the previously stored records followed by the newly
saved ones, all field values preserved. -/
theorem job_dict_roundtrip :
    (∀ (now : Int) (j : Job), Job.from_dict now j.to_dict = j) ∧
    (∀ (now : Int) (ds : List JobDict) (jobs : List Job),
      load_dicts now (save_dicts now ds jobs) = load_dicts now ds ++ jobs) := by
  constructor
  · intro now j
    rfl
  · intro now ds jobs
    simp [load_dicts, save_dicts, List.map_map, Function.comp_def,
      from_dict_to_dict]

/-- C7: marking the same records as seen twice with the same timestamp yields
the same seen-set membership as marking them once — for every prior mapping,
record list, time and retention, each URL is a key of the mapping after two
consecutive `_update_seen_jobs` calls iff it is a key after one call. -/
theorem update_seen_jobs_idempotent
    (seen : String → Option Int) (jobs : List Job) (now ret : Int)
    (url : String) :
    (update_seen_jobs (update_seen_jobs seen jobs now ret) jobs now ret
        url).isSome
      = (update_seen_jobs seen jobs now ret url).isSome := by
  by_cases hb : jobs.any (fun j => j.job_url == url)
  · simp [update_seen_jobs_apply, hb]
  · simp [update_seen_jobs_apply, hb, keepRecent_idem]

/-- C1 (counterexample): the claim "`exists` returns true iff a SeenEntry for
the identity exists AND its timestamp is within the retention window" is false
at the concrete store holding one entry for "u" with timestamp 0, at time 100
with a 30-day window: the entry is outside the window, yet `exists` is true. -/
theorem exists_seen_claim_cex :
    ¬ (exists_seen store0 job_u = true
        ↔ within_window store0 job_u.job_url 100 30 = true) := by
  decide

/-- C1 (amended): `JSONStorage.exists` returns true iff an entry for the
identity is present in the seen-jobs mapping, regardless of its timestamp; an
out-of-window entry stops counting as seen only once the next
`_update_seen_jobs` call purges it — right after such a call, plain membership
and retention-window membership coincide. -/
theorem exists_seen_membership :
    (∀ (seen : String → Option Int) (job : Job),
        exists_seen seen job = (seen job.job_url).isSome) ∧
    (∀ (seen : String → Option Int) (jobs : List Job) (now ret : Int)
        (url : String),
        (update_seen_jobs seen jobs now ret url).isSome
          = within_window (update_seen_jobs seen jobs now ret) url now ret) := by
  constructor
  · intro seen job
    rfl
  · intro seen jobs now ret url
    cases hr : update_seen_jobs seen jobs now ret url with
    | none => simp [within_window, hr]
    | some t =>
      have ht : t > now - ret := by
        refine keepRecent_gt (now - ret)
          (if jobs.any (fun j => j.job_url == url) then some now else seen url)
          t ?_
        rw [← update_seen_jobs_apply]
        exact hr
      simp [within_window, hr, ht]

/-- C2 (the code evaluated at the failing input): on a file holding an old
record (`jobA`, captured at 0, before the cutoff 100 − 30 = 70) and a recent
one (`jobB`, captured at 90), `cleanup_old_jobs` reports 1 record removed, yet
because it rewrites the file through the merging `save`, the resulting file is
`[jobA, jobB, jobB]` — the old record is still there and the recent one is
duplicated — instead of the `[jobB]` the claim (and the function's own
docstring) describe. -/
theorem cleanup_old_jobs_bug :
    (cleanup_old_jobs 30 100 st0).2 = 1 ∧
    (cleanup_old_jobs 30 100 st0).1.file = [jobA, jobB, jobB] ∧
    jobA.scraped_at ≤ 100 - 30 ∧
    (cleanup_old_jobs 30 100 st0).1.file ≠ [jobB] := by
  decide

/-- C9 (counterexample): with a dedup store holding a stale entry for "u"
(timestamp 0, outside the 30-day window at time 100) and a run that accepts
one record with identity "u", the modelled orchestrator counts `jobsNew = 0`
(the membership check ignores the window), while the claim's
"not present within the retention window" count is 1. -/
theorem run_counts_claim_cex :
    (run_counts store0 [job_u]).1 = 1 ∧
    (run_counts store0 [job_u]).2 ≠ new_within_window store0 100 30 [job_u] := by
  decide

/-- C9 (amended): for every completed run, `jobsFound ≥ jobsNew ≥ 0`, and
`jobsNew` equals the number of accepted records whose identity was not a key
of the seen-jobs mapping at run start (plain membership, with no
retention-window comparison). -/
theorem run_counts_bounds :
    ∀ (seen : String → Option Int) (accepted : List Job),
      (run_counts seen accepted).2 ≤ (run_counts seen accepted).1 ∧
      (run_counts seen accepted).2
        = (accepted.filter (fun j => (seen j.job_url).isNone)).length := by
  intro seen accepted
  constructor
  · exact List.length_filter_le _ _
  · have he : (fun j : Job => !exists_seen seen j)
        = fun j : Job => (seen j.job_url).isNone := by
      funext j
      unfold exists_seen
      cases seen j.job_url <;> rfl
    simp [run_counts, he]

/-- C3: `_should_include_job` returns true exactly when none of the three
rejection checks fires — (a) excluded sub-category substring, (b) company name
containing both "recruitment" and "agency" case-insensitively, (c) excluded
company substring; moreover "Acme Recruitment Agency Pty Ltd" is rejected by
check (b) alone (both other checks are silent with empty exclusion lists),
while "Acme Recruiting" is not rejected by check (b). -/
theorem should_include_job_spec :
    (∀ (cfg : ScraperConfig) (job : Job),
        should_include_job cfg job
          = !(spec_check_subcategory cfg.excluded_subcategories job
              || spec_check_keyword job
              || spec_check_company cfg.excluded_companies job)) ∧
    should_include_job cfgPlain jobAgency = false ∧
    spec_check_keyword jobAgency = true ∧
    spec_check_subcategory [] jobAgency = false ∧
    spec_check_company [] jobAgency = false ∧
    spec_check_keyword jobRecruiting = false ∧
    should_include_job cfgPlain jobRecruiting = true := by
  refine ⟨?_, by decide, by decide, by decide, by decide, by decide, by decide⟩
  intro cfg job
  unfold should_include_job spec_check_subcategory spec_check_keyword
    spec_check_company
  cases hA : cfg.excluded_subcategories.any
      (fun e => strContainsSub (lowerStr job.subcategory) (lowerStr e)) <;>
  cases hB1 : strContainsSub (lowerStr job.company) "recruitment" <;>
  cases hB2 : strContainsSub (lowerStr job.company) "agency" <;>
  cases hC : cfg.excluded_companies.any
      (fun e => strContainsSub (lowerStr job.company) (lowerStr e)) <;>
  simp [hA, hB1, hB2, hC]

/-- C4: the page loop always terminates — for every `max_pages ≥ 1`, a run
against a fetcher whose next-page lookup never succeeds scrapes exactly one
page, and a run against a fetcher whose next-page lookup always succeeds
scrapes exactly `max_pages` pages before stopping. -/
theorem scrape_page_counts (cfg : ScraperConfig) (max_pages : Nat)
    (h : 1 ≤ max_pages) :
    (∀ f : Fetcher, (∀ p, goto_next_page (f.nextSelectors p) = false) →
        (scrape cfg f max_pages).2 = 1) ∧
    (∀ f : Fetcher, (∀ p, goto_next_page (f.nextSelectors p) = true) →
        (scrape cfg f max_pages).2 = max_pages) := by
  constructor
  · intro f hf
    exact scrapeAux_no_next cfg f hf 1 max_pages h
  · intro f hf
    exact scrapeAux_always_next cfg f hf max_pages 1

/-- C4 witness: with `max_pages = 3`, the never-next fetcher yields one page
and the always-next fetcher yields three. -/
theorem scrape_page_counts_witness :
    (scrape cfgPlain feNever 3).2 = 1 ∧ (scrape cfgPlain feAlways 3).2 = 3 :=
  ⟨(scrape_page_counts cfgPlain 3 (by decide)).1 feNever (fun _ => rfl),
   (scrape_page_counts cfgPlain 3 (by decide)).2 feAlways (fun _ => rfl)⟩

/-- C5 (counterexample): the claim "on a wait timeout the run stops at that
page, no further pages are visited" is false — with a fetcher that times out
on page 1 but still shows a visible next-page control, a `max_pages = 2` run
visits two pages, not one. -/
theorem timeout_stop_claim_cex :
    feTimeout1.timeoutOn 1 = true ∧
    (scrape cfgPlain feTimeout1 2).2 = 2 ∧
    ¬ ((scrape cfgPlain feTimeout1 2).2 = 1) := by
  decide

/-- C5 (amended): when the bounded wait for the listings container times out
on a page, that page contributes zero records and no error reaches the caller
(the handler returns an empty list); the run then proceeds to the pagination
check as usual, stopping at that page only when the next-page lookup fails. -/
theorem timeout_page_empty (cfg : ScraperConfig) (f : Fetcher) (p : Nat)
    (h : f.timeoutOn p = true) :
    scrape_page cfg f p = [] ∧
    (scrapeAux cfg f p 2).2
      = if goto_next_page (f.nextSelectors p) then 2 else 1 := by
  constructor
  · simp [scrape_page, h]
  · by_cases hg : goto_next_page (f.nextSelectors p) <;>
      simp [scrapeAux, hg, scrapeAux_one]

/-- C5 witness: the amended statement evaluated on the concrete fetcher that
times out on page 1 with a visible next control. -/
theorem timeout_page_empty_witness :
    scrape_page cfgPlain feTimeout1 1 = [] ∧
    (scrapeAux cfgPlain feTimeout1 1 2).2
      = if goto_next_page (feTimeout1.nextSelectors 1) then 2 else 1 :=
  timeout_page_empty cfgPlain feTimeout1 1 rfl

/-- C6: a card from which extraction yields no record (no title link, no
`href`, or an exception) is skipped while the rest of the page is still
processed — both for the candidate list and for the filtered per-page loop;
in particular a document of 3 cards of which one lacks a title link yields
exactly 2 candidate records. -/
theorem extract_skip_spec :
    (∀ (cfg : ScraperConfig) (pre post : List Card) (c : Card),
        extract_job_data cfg c = none →
          (pre ++ c :: post).filterMap (extract_job_data cfg)
            = pre.filterMap (extract_job_data cfg)
              ++ post.filterMap (extract_job_data cfg) ∧
          process_cards cfg (pre ++ c :: post)
            = process_cards cfg pre ++ process_cards cfg post) ∧
    extract_job_data cfgPlain cardBad = none ∧
    extract_job_data cfgPlain cardNoHref = none ∧
    ([cardG1, cardBad, cardG2].filterMap (extract_job_data cfgPlain)).length
      = 2 := by
  refine ⟨?_, by decide, by decide, by decide⟩
  intro cfg pre post c h
  constructor
  · simp [List.filterMap_append, List.filterMap_cons, h]
  · simp [process_cards, List.filterMap_append, List.filterMap_cons, h]

/-- C6 witness: the skip property applied to the concrete 3-card document
around the title-less card. -/
theorem extract_skip_spec_witness :
    ([cardG1] ++ cardBad :: [cardG2]).filterMap (extract_job_data cfgPlain)
      = [cardG1].filterMap (extract_job_data cfgPlain)
        ++ [cardG2].filterMap (extract_job_data cfgPlain) ∧
    process_cards cfgPlain ([cardG1] ++ cardBad :: [cardG2])
      = process_cards cfgPlain [cardG1] ++ process_cards cfgPlain [cardG2] :=
  extract_skip_spec.1 cfgPlain [cardG1] [cardG2] cardBad (by decide)

/-- C8: whenever extraction of a card succeeds, each optional field of the
resulting record is the first selector strategy's (stripped) text where one
yields a result, and otherwise the field's defined fallback — "Unknown" for
company, location and sub-category, "Recently" for the posted date, null for
salary and description. -/
theorem extract_fields_spec :
    ∀ (cfg : ScraperConfig) (c : Card) (j : Job),
      extract_job_data cfg c = some j →
        j.company = spec_field c.companyResults "Unknown" ∧
        j.location = spec_field c.locationResults "Unknown" ∧
        j.subcategory = spec_field c.subcategoryResults "Unknown" ∧
        j.posted_date = some (spec_field c.postedResults "Recently") ∧
        j.salary = spec_field_opt c.salaryResults ∧
        j.description = spec_field_opt c.descriptionResults := by
  intro cfg c j h
  unfold extract_job_data at h
  split at h
  · exact Option.noConfusion h
  · split at h
    · exact Option.noConfusion h
    · split at h
      · exact Option.noConfusion h
      · split at h
        · exact Option.noConfusion h
        · injection h with h
          subst h
          refine ⟨?_, ?_, ?_, ?_, ?_, ?_⟩ <;>
            simp [mkJob, opt_text_or_eq_spec_field, opt_text_eq_spec_field_opt]

/-- C8 witness: the field specification evaluated on a card exercising found
strategies, skipped strategies and every fallback. -/
theorem extract_fields_spec_witness :
    jobFields.company = spec_field cardFields.companyResults "Unknown" ∧
    jobFields.location = spec_field cardFields.locationResults "Unknown" ∧
    jobFields.subcategory
      = spec_field cardFields.subcategoryResults "Unknown" ∧
    jobFields.posted_date
      = some (spec_field cardFields.postedResults "Recently") ∧
    jobFields.salary = spec_field_opt cardFields.salaryResults ∧
    jobFields.description = spec_field_opt cardFields.descriptionResults :=
  extract_fields_spec cfgPlain cardFields jobFields (by decide)

end JobScraper
